import Mathlib

/-!
# Verification of the DuckDB GORM driver (shallow embedding)

This development embeds the behaviourally relevant parts of the driver
(`duckdb` package) in Lean 4 and proves properties of the embedded code:

* the bound-parameter converter `convertNamedValues` / `isSlice`;
* the dialect type mapper `DataTypeOf`;
* the identifier quoter `QuoteTo`;
* the custom create callback `duckdbCreateCallback` (statement synthesis and
  generated-key write-back);
* the row-callback workaround switch `shouldApplyRowCallbackFix` and the
  callback-registration phase of the dialector's initialisation.

Go machine integers are modelled as `Nat`/`Int` with explicit reduction
modulo `2 ^ 64` where Go's two's-complement conversions matter.
-/

namespace GormDuckDB

/-! ## Definitions (the shallow embedding of the driver) -/

/-- A Go `interface{}` value, restricted to the shapes the argument
converter distinguishes: the untyped nil interface, a typed nil
`*time.Time`, a non-nil `*time.Time` (carrying the pointed-to timestamp,
abstracted as an `Int`), a `time.Time` value, a `string`, a `[]byte`,
a slice that is neither a string nor `[]byte` (modelled as a slice of
integers), and any other scalar value (abstracted by a tag). -/
inductive GoValue where
  | nilV : GoValue
  | timePtrNil : GoValue
  | timePtr : Int → GoValue
  | timeVal : Int → GoValue
  | str : String → GoValue
  | bytes : List Nat → GoValue
  | slice : List Int → GoValue
  | other : String → GoValue
  deriving DecidableEq, Repr

/-- Go `driver.NamedValue`: a bound parameter with a name, an ordinal and
a value. -/
structure NamedValue where
  name : String
  ordinal : Int
  value : GoValue
  deriving DecidableEq, Repr

/-- `isSlice` from the driver: true exactly for a non-nil value of slice
kind that is neither a `string` nor a `[]byte`. -/
def isSlice : GoValue → Bool
  | GoValue.nilV => false
  | GoValue.str _ => false
  | GoValue.bytes _ => false
  | GoValue.slice _ => true
  | _ => false

/-- The DuckDB array literal text for a slice of integers,
e.g. `[1, 2, 3]`. -/
def duckdbArrayLiteral (xs : List Int) : String :=
  "[" ++ String.intercalate ", " (xs.map toString) ++ "]"

/-- Modelled from the spec: `formatSliceForDuckDB` is declared outside the
available sources (only its caller `convertNamedValues` is present); the
spec says a sequence value is serialised "to the engine's native array
literal text form", i.e. `[1, 2, 3]`; serialisation of a plain integer
slice always succeeds. -/
def formatSliceForDuckDB (xs : List Int) : Except String String :=
  Except.ok (duckdbArrayLiteral xs)

/-- One element of the loop body of `convertNamedValues`: copy the
parameter, then rewrite its value when it is a `*time.Time` (nil pointer
becomes the explicit nil value, non-nil pointer is dereferenced) or a
slice recognised by `isSlice` whose formatting succeeds. -/
def convertNamedValue (arg : NamedValue) : NamedValue :=
  match arg.value with
  | GoValue.timePtrNil => { arg with value := GoValue.nilV }
  | GoValue.timePtr t => { arg with value := GoValue.timeVal t }
  | GoValue.slice xs =>
      if isSlice (GoValue.slice xs) then
        match formatSliceForDuckDB xs with
        | Except.ok s => { arg with value := GoValue.str s }
        | Except.error _ => arg
      else arg
  | _ => arg

/-- `convertNamedValues` from the driver: the output slice has one
converted element per input element, in order. -/
def convertNamedValues (args : List NamedValue) : List NamedValue :=
  args.map convertNamedValue

/-- The string constant `dataTypeText` from the driver. -/
def dataTypeText : String := "TEXT"

/-- The string constant `dataTypeBlob` from the driver. -/
def dataTypeBlob : String := "BLOB"

/-- The string constant `dataTypeJSON` from the driver. -/
def dataTypeJSON : String := "JSON"

/-- Modelled from the spec: the constant `sqlTypeInteger` is declared in a
source file not available here (only its uses in `DataTypeOf` are); the
spec calls it "the engine's plain (signed-compatible) integer type", and
the previous revision of the same function uses the literal "INTEGER" in
the identical positions. -/
def sqlTypeInteger : String := "INTEGER"

/-- The GORM logical data types distinguished by the driver's type switch;
every other `schema.DataType` (a raw string) is carried by `raw`. -/
inductive DataType where
  | boolT | intT | uintT | floatT | stringT | timeT | bytesT
  | raw : String → DataType
  deriving DecidableEq, Repr

/-- The subset of `schema.Field` read by `DataTypeOf`: the logical data
type, the declared size (a Go `int`), the primary-key flag, and the
reflected Go type name (`field.FieldType.String()` when `FieldType` is
non-nil). -/
structure SchemaField where
  dataType : DataType
  size : Int
  primaryKey : Bool
  fieldTypeName : Option String
  deriving DecidableEq, Repr

/-- The subset of the dialector `Config` the verified functions read:
`DefaultStringSize` (a Go `uint`) and the tri-state
`RowCallbackWorkaround` pointer (`none` models a nil pointer). -/
structure Config where
  defaultStringSize : Nat
  rowCallbackWorkaround : Option Bool
  deriving DecidableEq, Repr

/-- Go `strings.Contains` on character lists: the needle occurs
contiguously in the haystack (an empty needle always occurs). -/
def charsContain (needle : List Char) : List Char → Bool
  | [] => needle.isEmpty
  | c :: rest => needle.isPrefixOf (c :: rest) || charsContain needle rest

/-- Go `strings.Contains hay needle`. -/
def strContains (hay needle : String) : Bool :=
  charsContain needle.data hay.data

/-- The advanced-type fallthrough of `DataTypeOf`: the chain of
`strings.Contains` tests over the reflected Go type name; `none` when no
case matches (the Go switch falls through). -/
def advancedTypeName (typeName : String) : Option String :=
  if strContains typeName "StructType" then some "STRUCT"
  else if strContains typeName "MapType" then some "MAP"
  else if strContains typeName "ListType" then some "LIST"
  else if strContains typeName "DecimalType" then some "DECIMAL(18,6)"
  else if strContains typeName "IntervalType" then some "INTERVAL"
  else if strContains typeName "UUIDType" then some "UUID"
  else if strContains typeName "JSONType" then some dataTypeJSON
  else if strContains typeName "ENUMType" then some "ENUM"
  else if strContains typeName "UNIONType" then some "UNION"
  else if strContains typeName "TimestampTZType" then some "TIMESTAMPTZ"
  else if strContains typeName "HugeIntType" then some "HUGEINT"
  else if strContains typeName "BitStringType" then some "BIT"
  else if strContains typeName "BLOBType" then some "BLOB"
  else if strContains typeName "GEOMETRYType" then some "GEOMETRY"
  else if strContains typeName "NestedArrayType" then some "ARRAY"
  else if strContains typeName "QueryHintType" then some dataTypeJSON
  else if strContains typeName "ConstraintType" then some dataTypeJSON
  else if strContains typeName "AnalyticalFunctionType" then some dataTypeJSON
  else if strContains typeName "PerformanceMetricsType" then some dataTypeJSON
  else none

/-- The tail of `DataTypeOf` for a raw data type name: an array-suffixed
name is rebuilt as base type plus `[]`, anything else passes through
unchanged. -/
def rawTypeFallback (s : String) : String :=
  if s.endsWith "[]" then (s.dropRight 2) ++ "[]" else s

/-- `DataTypeOf` from the driver (the nil-field guard, which returns the
empty string, is elided: all claims are about non-nil fields). -/
def DataTypeOf (cfg : Config) (field : SchemaField) : String :=
  match field.dataType with
  | DataType.boolT => "BOOLEAN"
  | DataType.intT =>
      if field.size = 8 then "TINYINT"
      else if field.size = 16 then "SMALLINT"
      else if field.size = 32 then sqlTypeInteger
      else "BIGINT"
  | DataType.uintT =>
      if field.primaryKey then sqlTypeInteger
      else if field.size = 8 then "TINYINT"
      else if field.size = 16 then "SMALLINT"
      else if field.size = 32 then sqlTypeInteger
      else "BIGINT"
  | DataType.floatT => if field.size = 32 then "REAL" else "DOUBLE"
  | DataType.stringT =>
      let size : Int :=
        if field.size = 0 then
          if 0 < cfg.defaultStringSize ∧ cfg.defaultStringSize ≤ 65535 then
            (cfg.defaultStringSize : Int)
          else 256
        else field.size
      if 0 < size ∧ size < 65536 then "VARCHAR(" ++ toString size ++ ")"
      else dataTypeText
  | DataType.timeT => "TIMESTAMP"
  | DataType.bytesT => dataTypeBlob
  | DataType.raw s =>
      match field.fieldTypeName with
      | some typeName =>
          match advancedTypeName typeName with
          | some t => t
          | none => rawTypeFallback s
      | none => rawTypeFallback s

/-- Go `strings.ToLower` (character-wise; the messages involved are
ASCII). -/
def strToLower (s : String) : String := String.mk (s.data.map Char.toLower)

/-- The duplicate-registration test of the initialisation code: the
lower-cased error message contains "duplicated" or "already". -/
def isDuplicateMsg (msg : String) : Bool :=
  strContains (strToLower msg) "duplicated" ||
    strContains (strToLower msg) "already"

/-- `shouldApplyRowCallbackFix` from the driver: an explicitly configured
`RowCallbackWorkaround` switch wins; with no dialector config attached or
a nil switch pointer, the function falls through to its final
`return false` ("disabled for testing"). -/
def shouldApplyRowCallbackFix (dialectorConfig : Option Config) : Bool :=
  match dialectorConfig with
  | some cfg =>
      match cfg.rowCallbackWorkaround with
      | some b => b
      | none => false
  | none => false

/-- Outcome of one GORM callback `Replace` registration attempt: either
success or an error carrying its message. -/
inductive RegResult where
  | ok : RegResult
  | err : String → RegResult
  deriving DecidableEq, Repr

/-- What the callback-registration phase of the dialector's
initialisation produced: the error it returned (if it aborted), whether
the per-DB "callbacks_registered" flag was written, whether the row
callback was actually replaced, and whether the fallback warning was
logged. -/
structure InitOutcome where
  aborted : Option String
  registeredFlagSet : Bool
  rowCallbackReplaced : Bool
  rowWarningLogged : Bool
  deriving DecidableEq, Repr

/-- The row-callback step of the initialisation: attempted only when
`shouldApplyRowCallbackFix` said so; a failed replace never aborts — a
non-duplicate error is merely logged as a warning while duplicate errors
are swallowed silently. Returns (rowCallbackReplaced, warningLogged). -/
def rowCallbackStep (applyFix : Bool) (rowReg : RegResult) : Bool × Bool :=
  if applyFix then
    match rowReg with
    | RegResult.ok => (true, false)
    | RegResult.err msg => (false, if isDuplicateMsg msg then false else true)
  else (false, false)

/-- The callback-registration phase of the dialector's `Initialize`
method: when the per-DB flag is already set the whole phase is skipped;
otherwise replacing `gorm:create` aborts (the method returns an error)
exactly when the replace fails with a non-duplicate message; then the
row-callback step runs, and finally the per-DB flag is written. -/
def dialectorInitRegistration (alreadyRegistered : Bool)
    (createReg : RegResult) (applyFix : Bool) (rowReg : RegResult) :
    InitOutcome :=
  if alreadyRegistered then
    { aborted := none, registeredFlagSet := false,
      rowCallbackReplaced := false, rowWarningLogged := false }
  else
    match createReg with
    | RegResult.err msg =>
        if isDuplicateMsg msg then
          let rw := rowCallbackStep applyFix rowReg
          { aborted := none, registeredFlagSet := true,
            rowCallbackReplaced := rw.1, rowWarningLogged := rw.2 }
        else
          { aborted :=
              some ("failed to register custom create callback: " ++ msg),
            registeredFlagSet := false, rowCallbackReplaced := false,
            rowWarningLogged := false }
    | RegResult.ok =>
        let rw := rowCallbackStep applyFix rowReg
        { aborted := none, registeredFlagSet := true,
          rowCallbackReplaced := rw.1, rowWarningLogged := rw.2 }

/-- Go `int8` increment with two's-complement wraparound (`shiftDelimiter`
and `continuousBacktick` are `int8` variables in the source). -/
def inc8 (x : Int) : Int := if x = 127 then -128 else x + 1

/-- The mutable state of the `QuoteTo` loop: the characters written so
far and the four local variables of the Go function. -/
structure QuoteState where
  out : List Char
  underQuoted : Bool
  selfQuoted : Bool
  continuousBacktick : Int
  shiftDelimiter : Int
  deriving Repr

/-- One iteration of the `QuoteTo` loop body on one input character
(the inputs of interest are ASCII, where Go's byte iteration coincides
with character iteration). -/
def quoteStep (st : QuoteState) (v : Char) : QuoteState :=
  if v = '"' then
    let cb := inc8 st.continuousBacktick
    let st :=
      if cb = 2 then
        { st with out := st.out ++ ['"', '"'], continuousBacktick := 0 }
      else { st with continuousBacktick := cb }
    { st with shiftDelimiter := inc8 st.shiftDelimiter }
  else if v = '.' then
    let st :=
      if 0 < st.continuousBacktick ∨ st.selfQuoted = false then
        { st with
          shiftDelimiter := 0
          underQuoted := false
          continuousBacktick := 0
          out := st.out ++ ['"'] }
      else st
    { st with out := st.out ++ [v] }
  else
    let st :=
      if st.shiftDelimiter - st.continuousBacktick ≤ 0 ∧
          st.underQuoted = false then
        let sq := 0 < st.continuousBacktick
        { st with
          out := st.out ++ ['"']
          underQuoted := true
          selfQuoted := sq
          continuousBacktick :=
            if sq then st.continuousBacktick - 1 else st.continuousBacktick }
      else st
    let st :=
      { st with
        out := st.out ++ List.replicate (2 * st.continuousBacktick.toNat) '"'
        continuousBacktick := 0 }
    let st := { st with out := st.out ++ [v] }
    { st with shiftDelimiter := inc8 st.shiftDelimiter }

/-- `QuoteTo` from the driver, as a function from the identifier to the
text written: run the loop from the all-zero state, then emit the
trailing doubled quote if an odd quote run remains, and the final closing
quote. -/
def QuoteTo (str : String) : String :=
  let st := str.data.foldl quoteStep ⟨[], false, false, 0, 0⟩
  let st :=
    if 0 < st.continuousBacktick ∧ st.selfQuoted = false then
      { st with out := st.out ++ ['"', '"'] }
    else st
  String.mk (st.out ++ ['"'])

/-- The per-field information the create callback reads: the Go struct
field name, the database column name, the auto-increment flag, whether
`ReflectValue.FieldByName(field.Name)` is valid on the record, and the
reflected value that would be appended to the bind list. -/
structure CField where
  name : String
  dbName : String
  autoIncrement : Bool
  valid : Bool
  value : GoValue
  deriving DecidableEq, Repr

/-- The column name as the callback quotes it (`fmt.Sprintf` with the
`"%s"` verb wrapped in double quotes). -/
def quotedColumn (dbName : String) : String := "\"" ++ dbName ++ "\""

/-- The field-collection loop of `duckdbCreateCallback`: auto-increment
fields are skipped (the last one seen is remembered for the RETURNING
clause); every other field with a valid reflected value contributes its
quoted column name, a `?` placeholder and its value, in order. -/
def collectFields : List CField →
    List String × List String × List GoValue × Option CField
  | [] => ([], [], [], none)
  | f :: rest =>
      if f.autoIncrement then
        let r := collectFields rest
        (r.1, r.2.1, r.2.2.1, some (r.2.2.2.getD f))
      else if f.valid then
        let r := collectFields rest
        (quotedColumn f.dbName :: r.1, "?" :: r.2.1, f.value :: r.2.2.1,
          r.2.2.2)
      else collectFields rest

/-- What the create callback did: either it set the operation's error
and returned without executing anything, or it executed a statement
(carrying the SQL text, the bind values, and the RETURNING column when
one was appended). -/
inductive CreateOutcome where
  | fail : String → CreateOutcome
  | exec : String → List GoValue → Option String → CreateOutcome
  deriving DecidableEq, Repr

/-- The INSERT statement text the callback renders: the base statement,
with a RETURNING clause appended exactly when an auto-increment field was
found. -/
def renderCreateSQL (table : String) (cols phs : List String)
    (ret : Option String) : String :=
  let base := "INSERT INTO \"" ++ table ++ "\" (" ++
    String.intercalate ", " cols ++ ") VALUES (" ++
    String.intercalate ", " phs ++ ")"
  match ret with
  | some c => base ++ " RETURNING \"" ++ c ++ "\""
  | none => base

/-- The statement-synthesis part of `duckdbCreateCallback` (the nil-schema
guard is elided: the fields list is the schema): collect the fields, fail
with "no fields to insert" when no column was collected, otherwise render
and execute the INSERT. -/
def duckdbCreateCallback (table : String) (fields : List CField) :
    CreateOutcome :=
  let r := collectFields fields
  if r.1.length = 0 then CreateOutcome.fail "no fields to insert"
  else
    CreateOutcome.exec
      (renderCreateSQL table r.1 r.2.1 (r.2.2.2.map CField.dbName))
      r.2.2.1 (r.2.2.2.map CField.dbName)

/-- The dynamic type of the scalar the RETURNING scan produced, as the
write-back type switch distinguishes it: `uint64` (a value below
`2 ^ 64`), `int64`, `int32`, Go `int` (64-bit), or any other dynamic type
(abstracted by its type name). -/
inductive IdVal where
  | u64 : Nat → IdVal
  | i64 : Int → IdVal
  | i32 : Int → IdVal
  | intV : Int → IdVal
  | other : String → IdVal
  deriving DecidableEq, Repr

/-- The reflect kind family of the target struct field: one of the
unsigned integer kinds, one of the signed integer kinds, or anything
else (which the Go kind switch silently skips). -/
inductive FieldKind where
  | uintFamily | intFamily | otherKind
  deriving DecidableEq, Repr

/-- What the write-back did to the struct field: stored an unsigned
value (`reflect.Value.SetUint`), stored a signed value
(`reflect.Value.SetInt`), logged "Could not convert" and returned with
the field untouched, or fell through the kind switch doing nothing. -/
inductive WriteBack where
  | setUint : Nat → WriteBack
  | setInt : Int → WriteBack
  | rejected : WriteBack
  | skipped : WriteBack
  deriving DecidableEq, Repr

/-- Go's conversion `uint64(v)` of a signed value: two's-complement
reinterpretation, i.e. reduction modulo `2 ^ 64` into `[0, 2 ^ 64)`. -/
def toUInt64Wrap (v : Int) : Nat := (v % (2 ^ 64 : Int)).toNat

/-- Go's conversion `int64(v)` of a `uint64` value: the low 64 bits read
as a two's-complement signed value. -/
def toInt64Wrap (v : Nat) : Int :=
  let r : Nat := v % 2 ^ 64
  if r < 2 ^ 63 then (r : Int) else (r : Int) - 2 ^ 64

/-- The generated-key write-back switch of `duckdbCreateCallback`: an
outer switch on the target field's reflect kind, an inner type switch on
the scanned value. Every arm converts unconditionally with Go conversion
semantics; only a value of an unlisted dynamic type is rejected. -/
def writeBackGeneratedKey (kind : FieldKind) (id : IdVal) : WriteBack :=
  match kind with
  | FieldKind.uintFamily =>
      match id with
      | IdVal.u64 v => WriteBack.setUint v
      | IdVal.i64 v => WriteBack.setUint (toUInt64Wrap v)
      | IdVal.i32 v => WriteBack.setUint (toUInt64Wrap v)
      | IdVal.intV v => WriteBack.setUint (toUInt64Wrap v)
      | IdVal.other _ => WriteBack.rejected
  | FieldKind.intFamily =>
      match id with
      | IdVal.i64 v => WriteBack.setInt v
      | IdVal.u64 v => WriteBack.setInt (toInt64Wrap v)
      | IdVal.i32 v => WriteBack.setInt v
      | IdVal.intV v => WriteBack.setInt v
      | IdVal.other _ => WriteBack.rejected
  | FieldKind.otherKind => WriteBack.skipped

/-! ## Theorems -/

example :
    convertNamedValues
      [⟨"a", 1, GoValue.timePtrNil⟩, ⟨"b", 2, GoValue.timePtr 7⟩,
       ⟨"c", 3, GoValue.slice [1, 2, 3]⟩, ⟨"d", 4, GoValue.str "x"⟩] =
      [⟨"a", 1, GoValue.nilV⟩, ⟨"b", 2, GoValue.timeVal 7⟩,
       ⟨"c", 3, GoValue.str "[1, 2, 3]"⟩, ⟨"d", 4, GoValue.str "x"⟩] := by
  decide

/-- The loop body of `convertNamedValues` copies the parameter's name. -/
theorem convertNamedValue_name (a : NamedValue) :
    (convertNamedValue a).name = a.name := by
  cases a with
  | mk n o v => cases v <;> rfl

/-- The loop body of `convertNamedValues` copies the parameter's ordinal. -/
theorem convertNamedValue_ordinal (a : NamedValue) :
    (convertNamedValue a).ordinal = a.ordinal := by
  cases a with
  | mk n o v => cases v <;> rfl

/-- C6: `convertNamedValues` maps each bound parameter independently: a nil
pointer-to-`time.Time` becomes the explicit null value (not a typed nil), a
non-nil pointer-to-`time.Time` becomes its pointed-to timestamp value, a
slice value other than a string or `[]byte` is replaced by the DuckDB array
literal text produced for it, and every other value passes through
unchanged. -/
theorem convertNamedValues_value_mapping (args : List NamedValue) (i : Nat)
    (a : NamedValue) (h : args[i]? = some a) :
    ∃ c, (convertNamedValues args)[i]? = some c ∧
      (a.value = GoValue.timePtrNil → c.value = GoValue.nilV) ∧
      (∀ t, a.value = GoValue.timePtr t → c.value = GoValue.timeVal t) ∧
      (∀ xs, a.value = GoValue.slice xs →
        c.value = GoValue.str (duckdbArrayLiteral xs)) ∧
      (a.value ≠ GoValue.timePtrNil → (∀ t, a.value ≠ GoValue.timePtr t) →
        isSlice a.value = false → c.value = a.value) := by
  refine ⟨convertNamedValue a, ?_, ?_, ?_, ?_, ?_⟩
  · simp [convertNamedValues, List.getElem?_map, h]
  · intro hv; simp [convertNamedValue, hv]
  · intro t hv; simp [convertNamedValue, hv]
  · intro xs hv; simp [convertNamedValue, hv, isSlice, formatSliceForDuckDB]
  · intro h1 h2 h3
    cases hv : a.value <;>
      simp_all [convertNamedValue, isSlice]

/-- Closed witness for C6: evaluates the mapping theorem on a concrete
one-element parameter list holding a nil pointer-to-timestamp. -/
theorem convertNamedValues_value_mapping_witness :
    ∃ c, (convertNamedValues [⟨"a", 1, GoValue.timePtrNil⟩])[0]? = some c ∧
      ((⟨"a", 1, GoValue.timePtrNil⟩ : NamedValue).value = GoValue.timePtrNil →
        c.value = GoValue.nilV) ∧
      (∀ t, (⟨"a", 1, GoValue.timePtrNil⟩ : NamedValue).value = GoValue.timePtr t →
        c.value = GoValue.timeVal t) ∧
      (∀ xs, (⟨"a", 1, GoValue.timePtrNil⟩ : NamedValue).value = GoValue.slice xs →
        c.value = GoValue.str (duckdbArrayLiteral xs)) ∧
      ((⟨"a", 1, GoValue.timePtrNil⟩ : NamedValue).value ≠ GoValue.timePtrNil →
        (∀ t, (⟨"a", 1, GoValue.timePtrNil⟩ : NamedValue).value ≠ GoValue.timePtr t) →
        isSlice (⟨"a", 1, GoValue.timePtrNil⟩ : NamedValue).value = false →
        c.value = (⟨"a", 1, GoValue.timePtrNil⟩ : NamedValue).value) :=
  convertNamedValues_value_mapping [⟨"a", 1, GoValue.timePtrNil⟩] 0
    ⟨"a", 1, GoValue.timePtrNil⟩ rfl

/-- C10: `convertNamedValues` returns a slice of the same length and order
as its input, and each output element keeps the name and ordinal of the
corresponding input parameter; only the value may differ. -/
theorem convertNamedValues_frame (args : List NamedValue) :
    (convertNamedValues args).length = args.length ∧
    ∀ (i : Nat) (a : NamedValue), args[i]? = some a →
      ∃ c, (convertNamedValues args)[i]? = some c ∧
        c.name = a.name ∧ c.ordinal = a.ordinal := by
  refine ⟨by simp [convertNamedValues], ?_⟩
  intro i a h
  exact ⟨convertNamedValue a, by simp [convertNamedValues, List.getElem?_map, h],
    convertNamedValue_name a, convertNamedValue_ordinal a⟩

/-- Closed witness for C10: evaluates the frame theorem on a concrete
two-element parameter list. -/
theorem convertNamedValues_frame_witness :
    (convertNamedValues
        [⟨"x", 1, GoValue.slice [4]⟩, ⟨"y", 2, GoValue.str "s"⟩]).length =
      ([⟨"x", 1, GoValue.slice [4]⟩, ⟨"y", 2, GoValue.str "s"⟩] :
        List NamedValue).length ∧
    ∀ (i : Nat) (a : NamedValue),
      ([⟨"x", 1, GoValue.slice [4]⟩, ⟨"y", 2, GoValue.str "s"⟩] :
        List NamedValue)[i]? = some a →
      ∃ c, (convertNamedValues
          [⟨"x", 1, GoValue.slice [4]⟩, ⟨"y", 2, GoValue.str "s"⟩])[i]? =
          some c ∧ c.name = a.name ∧ c.ordinal = a.ordinal :=
  convertNamedValues_frame [⟨"x", 1, GoValue.slice [4]⟩, ⟨"y", 2, GoValue.str "s"⟩]

example : DataTypeOf ⟨256, none⟩ ⟨DataType.stringT, 0, false, none⟩ =
    "VARCHAR(256)" := by decide

example : DataTypeOf ⟨256, none⟩ ⟨DataType.stringT, 70000, false, none⟩ =
    "TEXT" := by decide

/-- C4 counterexample: a string field with no declared size, under a
configured default string size of 70000 (above the 65535 threshold), maps
to "VARCHAR(256)" — the code falls back to the safe default width 256 —
and not to the unbounded TEXT type the claim requires. -/
theorem dataTypeOf_string_default_over_threshold :
    DataTypeOf ⟨70000, none⟩ ⟨DataType.stringT, 0, false, none⟩ =
      "VARCHAR(256)" ∧
    DataTypeOf ⟨70000, none⟩ ⟨DataType.stringT, 0, false, none⟩ ≠
      dataTypeText := by
  decide

/-- C4 (amended): for a string field, `DataTypeOf` returns VARCHAR(n) for
a declared size in (0, 65536) and TEXT for a declared size ≥ 65536; when
no size is declared, the width is the configured default string size if
that lies in [1, 65535] and otherwise the safe fallback 256 — so an
unspecified width never yields TEXT, not even when the configured default
exceeds the threshold. -/
theorem dataTypeOf_string_amended (cfg : Config) (field : SchemaField)
    (h : field.dataType = DataType.stringT) :
    (0 < field.size → field.size < 65536 →
      DataTypeOf cfg field = "VARCHAR(" ++ toString field.size ++ ")") ∧
    (65536 ≤ field.size → DataTypeOf cfg field = dataTypeText) ∧
    (field.size = 0 → 0 < cfg.defaultStringSize →
      cfg.defaultStringSize ≤ 65535 →
      DataTypeOf cfg field =
        "VARCHAR(" ++ toString (cfg.defaultStringSize : Int) ++ ")") ∧
    (field.size = 0 →
      (cfg.defaultStringSize = 0 ∨ 65535 < cfg.defaultStringSize) →
      DataTypeOf cfg field = "VARCHAR(" ++ toString (256 : Int) ++ ")") := by
  obtain ⟨dt, sz, pk, ftn⟩ := field
  simp only [SchemaField.dataType] at h
  subst h
  simp only [DataTypeOf]
  refine ⟨?_, ?_, ?_, ?_⟩
  · intro h1 h2
    rw [if_neg (show ¬sz = 0 by omega),
      if_pos (show 0 < sz ∧ sz < 65536 from ⟨h1, h2⟩)]
  · intro h1
    rw [if_neg (show ¬sz = 0 by omega),
      if_neg (show ¬(0 < sz ∧ sz < 65536) by omega)]
  · intro h1 h2 h3
    subst h1
    rw [if_pos (show (0 : Int) = 0 from rfl),
      if_pos (show 0 < cfg.defaultStringSize ∧ cfg.defaultStringSize ≤ 65535
        from ⟨h2, h3⟩),
      if_pos (show (0 : Int) < (cfg.defaultStringSize : Int) ∧
        (cfg.defaultStringSize : Int) < 65536 by omega)]
  · intro h1 h2
    subst h1
    rcases h2 with h2 | h2
    · rw [if_pos (show (0 : Int) = 0 from rfl),
        if_neg (show ¬(0 < cfg.defaultStringSize ∧
          cfg.defaultStringSize ≤ 65535) by omega),
        if_pos (show (0 : Int) < 256 ∧ (256 : Int) < 65536 by norm_num)]
    · rw [if_pos (show (0 : Int) = 0 from rfl),
        if_neg (show ¬(0 < cfg.defaultStringSize ∧
          cfg.defaultStringSize ≤ 65535) by omega),
        if_pos (show (0 : Int) < 256 ∧ (256 : Int) < 65536 by norm_num)]

/-- Closed witness for the amended C4: evaluates the theorem on a string
field of declared size 100 with the stock default of 256. -/
theorem dataTypeOf_string_amended_witness :
    ((0 : Int) < (⟨DataType.stringT, 100, false, none⟩ : SchemaField).size →
      (⟨DataType.stringT, 100, false, none⟩ : SchemaField).size < 65536 →
      DataTypeOf ⟨256, none⟩ ⟨DataType.stringT, 100, false, none⟩ =
        "VARCHAR(" ++
          toString (⟨DataType.stringT, 100, false, none⟩ : SchemaField).size
          ++ ")") ∧
    (65536 ≤ (⟨DataType.stringT, 100, false, none⟩ : SchemaField).size →
      DataTypeOf ⟨256, none⟩ ⟨DataType.stringT, 100, false, none⟩ =
        dataTypeText) ∧
    ((⟨DataType.stringT, 100, false, none⟩ : SchemaField).size = 0 →
      0 < (⟨(256 : Nat), none⟩ : Config).defaultStringSize →
      (⟨(256 : Nat), none⟩ : Config).defaultStringSize ≤ 65535 →
      DataTypeOf ⟨256, none⟩ ⟨DataType.stringT, 100, false, none⟩ =
        "VARCHAR(" ++
          toString ((⟨(256 : Nat), none⟩ : Config).defaultStringSize : Int)
          ++ ")") ∧
    ((⟨DataType.stringT, 100, false, none⟩ : SchemaField).size = 0 →
      ((⟨(256 : Nat), none⟩ : Config).defaultStringSize = 0 ∨
        65535 < (⟨(256 : Nat), none⟩ : Config).defaultStringSize) →
      DataTypeOf ⟨256, none⟩ ⟨DataType.stringT, 100, false, none⟩ =
        "VARCHAR(" ++ toString (256 : Int) ++ ")") :=
  dataTypeOf_string_amended ⟨256, none⟩ ⟨DataType.stringT, 100, false, none⟩ rfl

/-- C8: for every unsigned-integer field marked as primary key,
`DataTypeOf` returns the plain signed-compatible INTEGER type, and for no
unsigned-integer field does it return an explicitly-unsigned type name:
the result is always one of the four signed names, none of which begins
with the letter U that prefixes every DuckDB unsigned type name. -/
theorem dataTypeOf_uint_signed (cfg : Config) (field : SchemaField)
    (h : field.dataType = DataType.uintT) :
    (field.primaryKey = true → DataTypeOf cfg field = sqlTypeInteger) ∧
    DataTypeOf cfg field ∈ ["TINYINT", "SMALLINT", "INTEGER", "BIGINT"] ∧
    (DataTypeOf cfg field).data.head? ≠ some 'U' := by
  obtain ⟨dt, sz, pk, ftn⟩ := field
  simp only [SchemaField.dataType] at h
  subst h
  simp only [DataTypeOf, SchemaField.primaryKey, SchemaField.size]
  cases pk
  · simp only [Bool.false_eq_true, if_false]
    split
    · exact ⟨fun hc => absurd hc (by simp), by decide, by decide⟩
    · split
      · exact ⟨fun hc => absurd hc (by simp), by decide, by decide⟩
      · split
        · exact ⟨fun hc => absurd hc (by simp), by decide, by decide⟩
        · exact ⟨fun hc => absurd hc (by simp), by decide, by decide⟩
  · refine ⟨fun _ => rfl, ?_, ?_⟩
    · show sqlTypeInteger ∈ _
      decide
    · show sqlTypeInteger.data.head? ≠ some 'U'
      decide

/-- Closed witness for C8: evaluates the theorem on a concrete
primary-key unsigned field of width 64. -/
theorem dataTypeOf_uint_signed_witness :
    ((⟨DataType.uintT, 64, true, none⟩ : SchemaField).primaryKey = true →
      DataTypeOf ⟨256, none⟩ ⟨DataType.uintT, 64, true, none⟩ =
        sqlTypeInteger) ∧
    DataTypeOf ⟨256, none⟩ ⟨DataType.uintT, 64, true, none⟩ ∈
      ["TINYINT", "SMALLINT", "INTEGER", "BIGINT"] ∧
    (DataTypeOf ⟨256, none⟩ ⟨DataType.uintT, 64, true, none⟩).data.head? ≠
      some 'U' :=
  dataTypeOf_uint_signed ⟨256, none⟩ ⟨DataType.uintT, 64, true, none⟩ rfl

example : isDuplicateMsg "callback Already Registered" = true := by decide

example : isDuplicateMsg "event conflict: duplicated" = true := by decide

example : isDuplicateMsg "connection refused" = false := by decide

/-- C1 (code bug): with the `RowCallbackWorkaround` switch left unset
(nil), `shouldApplyRowCallbackFix` returns false — so initialisation
leaves the generic row callback in place instead of replacing it with the
corrected implementation, contradicting the `Config` documentation
("Default: true (apply workaround)") and the function's own comment
("Currently always apply fix"). -/
theorem shouldApplyRowCallbackFix_default_false :
    shouldApplyRowCallbackFix (some ⟨256, none⟩) = false ∧
    shouldApplyRowCallbackFix none = false ∧
    (dialectorInitRegistration false RegResult.ok
        (shouldApplyRowCallbackFix (some ⟨256, none⟩))
        RegResult.ok).rowCallbackReplaced = false := by
  decide

/-- C5 counterexample: a row-callback replace error whose message is
neither "duplicated" nor "already" ("connection refused") does NOT abort
the registration phase — initialisation proceeds, marks the handle
registered and only logs a warning, refuting the claim that every
non-duplicate registration error aborts `Initialize`. -/
theorem initRegistration_row_error_no_abort :
    isDuplicateMsg "connection refused" = false ∧
    (dialectorInitRegistration false RegResult.ok true
        (RegResult.err "connection refused")).aborted = none ∧
    (dialectorInitRegistration false RegResult.ok true
        (RegResult.err "connection refused")).registeredFlagSet = true ∧
    (dialectorInitRegistration false RegResult.ok true
        (RegResult.err "connection refused")).rowWarningLogged = true := by
  decide

/-- C5 (amended): duplicate-indicating registration errors are swallowed
and the handle is marked registered; a non-duplicate error from replacing
the create callback aborts initialisation with an error; an error from
replacing the row callback never aborts — when non-duplicate it is logged
as a warning (exactly when the workaround step ran) and the row callback
is left unreplaced. -/
theorem initRegistration_amended (createReg rowReg : RegResult)
    (applyFix : Bool) :
    ((dialectorInitRegistration false createReg applyFix rowReg).aborted.isSome
      ↔ ∃ msg, createReg = RegResult.err msg ∧ isDuplicateMsg msg = false) ∧
    ((dialectorInitRegistration false createReg applyFix rowReg).aborted =
        none →
      (dialectorInitRegistration false createReg applyFix
        rowReg).registeredFlagSet = true) ∧
    (∀ msg, rowReg = RegResult.err msg → isDuplicateMsg msg = false →
      createReg = RegResult.ok →
      (dialectorInitRegistration false createReg applyFix rowReg).aborted =
        none ∧
      (dialectorInitRegistration false createReg applyFix
        rowReg).rowCallbackReplaced = false ∧
      (dialectorInitRegistration false createReg applyFix
        rowReg).rowWarningLogged = applyFix) := by
  refine ⟨?_, ?_, ?_⟩
  · cases createReg with
    | ok => simp [dialectorInitRegistration]
    | err m =>
        cases hd : isDuplicateMsg m <;>
          simp [dialectorInitRegistration, hd]
  · cases createReg with
    | ok => simp [dialectorInitRegistration]
    | err m =>
        cases hd : isDuplicateMsg m <;>
          simp [dialectorInitRegistration, hd]
  · intro msg hrow hdup hcreate
    subst hrow; subst hcreate
    cases applyFix <;>
      simp [dialectorInitRegistration, rowCallbackStep, hdup]

/-- Closed witness for the amended C5: evaluates the theorem at a
successful create replace and a failing, non-duplicate row replace. -/
theorem initRegistration_amended_witness :
    (dialectorInitRegistration false RegResult.ok true
        (RegResult.err "boom")).aborted = none ∧
    (dialectorInitRegistration false RegResult.ok true
        (RegResult.err "boom")).rowCallbackReplaced = false ∧
    (dialectorInitRegistration false RegResult.ok true
        (RegResult.err "boom")).rowWarningLogged = true :=
  (initRegistration_amended RegResult.ok (RegResult.err "boom") true).2.2
    "boom" rfl (by decide) rfl

example : QuoteTo "users" = "\"users\"" := by decide

/-- C9: `QuoteTo` writes a compound identifier of plain segments as two
independently quoted segments joined by an unquoted dot, and writes a
plain quote-free identifier wrapped in double quotes. -/
theorem quoteTo_compound_and_plain :
    QuoteTo "a.b" = "\"a\".\"b\"" ∧ QuoteTo "users" = "\"users\"" := by
  decide

example :
    duckdbCreateCallback "users"
      [⟨"ID", "id", true, true, GoValue.other "uint"⟩,
       ⟨"Name", "name", false, true, GoValue.str "n"⟩,
       ⟨"Age", "age", false, true, GoValue.other "42"⟩] =
    CreateOutcome.exec
      "INSERT INTO \"users\" (\"name\", \"age\") VALUES (?, ?) RETURNING \"id\""
      [GoValue.str "n", GoValue.other "42"] (some "id") := by
  decide

example :
    duckdbCreateCallback "users"
      [⟨"Name", "name", false, true, GoValue.str "n"⟩] =
    CreateOutcome.exec "INSERT INTO \"users\" (\"name\") VALUES (?)"
      [GoValue.str "n"] none := by
  decide

/-- The collected column list is exactly the quoted column names of the
valid non-auto-increment fields, in order. -/
theorem collectFields_cols (fields : List CField) :
    (collectFields fields).1 =
      (fields.filter
        (fun g => g.autoIncrement = false ∧ g.valid = true)).map
        (fun g => quotedColumn g.dbName) := by
  induction fields with
  | nil => rfl
  | cons f rest ih =>
      by_cases ha : f.autoIncrement
      · simp [collectFields, ha, List.filter_cons, ih]
      · by_cases hv : f.valid
        · simp [collectFields, ha, hv, List.filter_cons, ih]
        · simp [collectFields, ha, hv, List.filter_cons, ih]

/-- When the fields list has no auto-increment member, the collection
remembers none. -/
theorem collectFields_aif_none (fields : List CField)
    (h : fields.filter (fun g => g.autoIncrement) = []) :
    (collectFields fields).2.2.2 = none := by
  induction fields with
  | nil => rfl
  | cons f rest ih =>
      by_cases ha : f.autoIncrement
      · simp [List.filter_cons, ha] at h
      · simp only [List.filter_cons, ha] at h
        simp only [collectFields, ha]
        by_cases hv : f.valid
        · simp [hv, ih (by simpa using h)]
        · simp [hv, ih (by simpa using h)]

/-- When the fields list has exactly one auto-increment member, the
collection remembers exactly that field. -/
theorem collectFields_aif_single (fields : List CField) (f : CField)
    (h : fields.filter (fun g => g.autoIncrement) = [f]) :
    (collectFields fields).2.2.2 = some f := by
  induction fields with
  | nil => simp at h
  | cons g rest ih =>
      by_cases ha : g.autoIncrement
      · simp only [List.filter_cons, ha, if_pos, List.cons.injEq] at h
        obtain ⟨hgf, hrest⟩ := h
        simp only [collectFields, ha, if_pos]
        rw [collectFields_aif_none rest hrest]
        simpa using hgf
      · simp only [List.filter_cons, ha] at h
        simp only [collectFields, ha]
        by_cases hv : g.valid
        · simp [hv, ih (by simpa using h)]
        · simp [hv, ih (by simpa using h)]

/-- The callback's column quoting is injective: distinct column names
stay distinct after quoting. -/
theorem quotedColumn_inj (x y : String)
    (h : quotedColumn x = quotedColumn y) : x = y := by
  have hd := congrArg String.data h
  simp only [quotedColumn, String.data_append] at hd
  exact String.ext (by simpa using hd)

/-- C3: whenever the create callback generates a statement, a record with
exactly one auto-increment field yields an INSERT whose column list
excludes that field's quoted column and whose text is the base INSERT
with a RETURNING clause naming exactly that column appended; a record
with no auto-increment field yields the bare INSERT with no RETURNING
clause appended. -/
theorem duckdbCreateCallback_returning (table : String)
    (fields : List CField)
    (hnd : (fields.map CField.dbName).Nodup)
    (hne : (collectFields fields).1 ≠ []) :
    (∀ f, fields.filter (fun g => g.autoIncrement) = [f] →
      quotedColumn f.dbName ∉ (collectFields fields).1 ∧
      duckdbCreateCallback table fields =
        CreateOutcome.exec
          (renderCreateSQL table (collectFields fields).1
            (collectFields fields).2.1 none ++
            " RETURNING \"" ++ f.dbName ++ "\"")
          (collectFields fields).2.2.1 (some f.dbName)) ∧
    (fields.filter (fun g => g.autoIncrement) = [] →
      duckdbCreateCallback table fields =
        CreateOutcome.exec
          (renderCreateSQL table (collectFields fields).1
            (collectFields fields).2.1 none)
          (collectFields fields).2.2.1 none) := by
  constructor
  · intro f hone
    have haif := collectFields_aif_single fields f hone
    have hf_mem : f ∈ fields ∧ f.autoIncrement = true := by
      have : f ∈ fields.filter (fun g => g.autoIncrement) := by
        rw [hone]; exact List.mem_singleton.mpr rfl
      simpa using List.mem_filter.mp this
    constructor
    · intro hmem
      rw [collectFields_cols] at hmem
      obtain ⟨g, hg, heq⟩ := List.mem_map.mp hmem
      have hg2 := List.mem_filter.mp hg
      have hgf : g.dbName = f.dbName := quotedColumn_inj _ _ heq
      have : g = f :=
        List.inj_on_of_nodup_map hnd hg2.1 hf_mem.1 hgf
      subst this
      have hg3 : g.autoIncrement = false ∧ g.valid = true := by
        simpa using hg2.2
      rw [hf_mem.2] at hg3
      exact absurd hg3.1 (by simp)
    · simp only [duckdbCreateCallback, haif]
      rw [if_neg (by simpa using hne)]
      rfl
  · intro hnone
    have haif := collectFields_aif_none fields hnone
    simp only [duckdbCreateCallback, haif]
    rw [if_neg (by simpa using hne)]
    rfl

/-- Closed witness for C3: evaluates the theorem on a concrete record
with an auto-increment `id` column and a `name` column. -/
theorem duckdbCreateCallback_returning_witness :
    (∀ f, ([⟨"ID", "id", true, true, GoValue.other "uint"⟩,
        ⟨"Name", "name", false, true, GoValue.str "n"⟩] :
        List CField).filter (fun g => g.autoIncrement) = [f] →
      quotedColumn f.dbName ∉
        (collectFields [⟨"ID", "id", true, true, GoValue.other "uint"⟩,
          ⟨"Name", "name", false, true, GoValue.str "n"⟩]).1 ∧
      duckdbCreateCallback "users"
          [⟨"ID", "id", true, true, GoValue.other "uint"⟩,
           ⟨"Name", "name", false, true, GoValue.str "n"⟩] =
        CreateOutcome.exec
          (renderCreateSQL "users"
            (collectFields [⟨"ID", "id", true, true, GoValue.other "uint"⟩,
              ⟨"Name", "name", false, true, GoValue.str "n"⟩]).1
            (collectFields [⟨"ID", "id", true, true, GoValue.other "uint"⟩,
              ⟨"Name", "name", false, true, GoValue.str "n"⟩]).2.1 none ++
            " RETURNING \"" ++ f.dbName ++ "\"")
          (collectFields [⟨"ID", "id", true, true, GoValue.other "uint"⟩,
            ⟨"Name", "name", false, true, GoValue.str "n"⟩]).2.2.1
          (some f.dbName)) ∧
    (([⟨"ID", "id", true, true, GoValue.other "uint"⟩,
        ⟨"Name", "name", false, true, GoValue.str "n"⟩] :
        List CField).filter (fun g => g.autoIncrement) = [] →
      duckdbCreateCallback "users"
          [⟨"ID", "id", true, true, GoValue.other "uint"⟩,
           ⟨"Name", "name", false, true, GoValue.str "n"⟩] =
        CreateOutcome.exec
          (renderCreateSQL "users"
            (collectFields [⟨"ID", "id", true, true, GoValue.other "uint"⟩,
              ⟨"Name", "name", false, true, GoValue.str "n"⟩]).1
            (collectFields [⟨"ID", "id", true, true, GoValue.other "uint"⟩,
              ⟨"Name", "name", false, true, GoValue.str "n"⟩]).2.1 none)
          (collectFields [⟨"ID", "id", true, true, GoValue.other "uint"⟩,
            ⟨"Name", "name", false, true, GoValue.str "n"⟩]).2.2.1 none) :=
  duckdbCreateCallback_returning "users"
    [⟨"ID", "id", true, true, GoValue.other "uint"⟩,
     ⟨"Name", "name", false, true, GoValue.str "n"⟩]
    (by decide) (by decide)

/-- C7: if the field iteration collects zero insertable columns, the
create callback reports the error "no fields to insert" and returns
without executing any statement. -/
theorem duckdbCreateCallback_no_fields (table : String)
    (fields : List CField) (h : (collectFields fields).1 = []) :
    duckdbCreateCallback table fields =
      CreateOutcome.fail "no fields to insert" := by
  simp only [duckdbCreateCallback, h]
  rfl

/-- Closed witness for C7: a record whose only field is the
auto-increment key collects no columns, so the callback fails with
"no fields to insert" without executing. -/
theorem duckdbCreateCallback_no_fields_witness :
    duckdbCreateCallback "users"
        [⟨"ID", "id", true, true, GoValue.other "uint"⟩] =
      CreateOutcome.fail "no fields to insert" :=
  duckdbCreateCallback_no_fields "users"
    [⟨"ID", "id", true, true, GoValue.other "uint"⟩] (by decide)

/-- C2 counterexample: the write-back does NOT reject out-of-range
values. A negative `int64` scanned into an unsigned target is not
rejected but wraps: -1 is stored as `2 ^ 64 - 1`; and a `uint64` value
`2 ^ 63`, which exceeds the signed 64-bit range, is not rejected for a
signed target but wraps to `-2 ^ 63`. -/
theorem writeBackGeneratedKey_wraps :
    writeBackGeneratedKey FieldKind.uintFamily (IdVal.i64 (-1)) =
      WriteBack.setUint (2 ^ 64 - 1) ∧
    writeBackGeneratedKey FieldKind.uintFamily (IdVal.i64 (-1)) ≠
      WriteBack.rejected ∧
    writeBackGeneratedKey FieldKind.intFamily (IdVal.u64 (2 ^ 63)) =
      WriteBack.setInt (-(2 ^ 63)) ∧
    writeBackGeneratedKey FieldKind.intFamily (IdVal.u64 (2 ^ 63)) ≠
      WriteBack.rejected := by
  refine ⟨by decide, by decide, by decide, by decide⟩

/-- C2 (amended): for both unsigned and signed integer targets the
write-back accepts all four integer source types {uint64, int64, int32,
int} unconditionally and always stores a value, converting with Go's
two's-complement conversion semantics (an in-range value is stored
exactly; a negative source for an unsigned target, or a uint64 source
beyond the signed range, wraps); it rejects — logs and returns without
panicking and without setting the field — exactly the source values of
any other dynamic type, and a target of non-integer kind is silently
skipped. -/
theorem writeBackGeneratedKey_amended :
    (∀ v, writeBackGeneratedKey FieldKind.uintFamily (IdVal.u64 v) =
      WriteBack.setUint v) ∧
    (∀ v, writeBackGeneratedKey FieldKind.uintFamily (IdVal.i64 v) =
      WriteBack.setUint (toUInt64Wrap v)) ∧
    (∀ v, writeBackGeneratedKey FieldKind.uintFamily (IdVal.i32 v) =
      WriteBack.setUint (toUInt64Wrap v)) ∧
    (∀ v, writeBackGeneratedKey FieldKind.uintFamily (IdVal.intV v) =
      WriteBack.setUint (toUInt64Wrap v)) ∧
    (∀ v, 0 ≤ v → writeBackGeneratedKey FieldKind.uintFamily (IdVal.i64 v) =
      WriteBack.setUint (v.toNat % 2 ^ 64)) ∧
    (∀ v, writeBackGeneratedKey FieldKind.intFamily (IdVal.i64 v) =
      WriteBack.setInt v) ∧
    (∀ v, writeBackGeneratedKey FieldKind.intFamily (IdVal.u64 v) =
      WriteBack.setInt (toInt64Wrap v)) ∧
    (∀ v, writeBackGeneratedKey FieldKind.intFamily (IdVal.i32 v) =
      WriteBack.setInt v) ∧
    (∀ v, writeBackGeneratedKey FieldKind.intFamily (IdVal.intV v) =
      WriteBack.setInt v) ∧
    (∀ s, writeBackGeneratedKey FieldKind.uintFamily (IdVal.other s) =
      WriteBack.rejected) ∧
    (∀ s, writeBackGeneratedKey FieldKind.intFamily (IdVal.other s) =
      WriteBack.rejected) ∧
    (∀ id, writeBackGeneratedKey FieldKind.otherKind id =
      WriteBack.skipped) := by
  refine ⟨fun v => rfl, fun v => rfl, fun v => rfl, fun v => rfl, ?_,
    fun v => rfl, fun v => rfl, fun v => rfl, fun v => rfl,
    fun s => rfl, fun s => rfl, fun id => rfl⟩
  intro v hv
  show WriteBack.setUint (toUInt64Wrap v) =
    WriteBack.setUint (v.toNat % 2 ^ 64)
  congr 1
  unfold toUInt64Wrap
  have h1 : (2 : Int) ^ 64 = 18446744073709551616 := by norm_num
  have h2 : (2 : Nat) ^ 64 = 18446744073709551616 := by norm_num
  rw [h1, h2]
  omega

/-- Closed witness for the amended C2: evaluates the in-range conjunct of
the theorem at the concrete non-negative value 5. -/
theorem writeBackGeneratedKey_amended_witness :
    writeBackGeneratedKey FieldKind.uintFamily (IdVal.i64 5) =
      WriteBack.setUint ((5 : Int).toNat % 2 ^ 64) :=
  writeBackGeneratedKey_amended.2.2.2.2.1 5 (by norm_num)

end GormDuckDB
